import Mathlib

/-!
Shallow embedding of the France Tourisme Observation client core:
the session state module (src/src/utils/webapp/auth/authForm.ts, third
document: authState), the resilient API client (src/unnamed/part_006),
the auth service (authForm.ts, second document: login / getCurrentUser /
checkSession), and the two card state machines
(src/src/utils/webapp/front/slideLoginReset.ts and the
animateCardTransition function of authForm.ts).

Modelling conventions:
- localStorage is a record of three optional string-valued cells
  (fto_access_token, fto_refresh_token, fto_user).  JS truthiness of a
  cell (null or empty string is falsy) is modelled explicitly.
- The serialized user cell is modelled as either a value that parses
  back to a User (JSON.stringify round-trips) or an unparsable blob.
- The network is an oracle: a list of responses for the request being
  issued (one entry consumed per outbound fetch of that request) and a
  list of outcomes for the refresh endpoint.  An exhausted oracle
  models a thrown network exception with the generic fallback message,
  matching the catch branch of the source.
- Response bodies that the source parses with response.json() are
  carried directly on the oracle entry: the optional detail field used
  by the error branch, and the typed payload used by the success branch.
- CustomEvent dispatches are collected in an event list, in dispatch
  order.
-/

namespace FTO

/-- Auth events dispatched via dispatchAuthEvent in authState. -/
inductive AuthEvent
  | tokensUpdated
  | loggedIn
  | loggedOut
  | userUpdated
  | error
  deriving DecidableEq, Repr

/-- User record (api/types.ts, interface User). -/
structure User where
  id : Nat
  email : String
  name : String
  company_name : Option String
  custom_permissions : String
  is_active : Bool
  created_at : String
  updated_at : String
  deriving DecidableEq, Repr

/-- Content of the serialized-user storage cell: either a blob that
JSON.parse turns back into a User, or an unparsable blob (the catch
branch of getStoredUser). -/
inductive StoredUser
  | valid (u : User)
  | invalid
  deriving DecidableEq, Repr

/-- The three localStorage cells used by authState (STORAGE_KEYS). -/
structure Storage where
  access : Option String
  refresh : Option String
  user : Option StoredUser
  deriving DecidableEq, Repr

/-- The empty storage: every key absent. -/
def Storage.empty : Storage := ⟨none, none, none⟩

/-- Token pair as returned by getTokens. -/
structure TokenPair where
  access_token : String
  refresh_token : String
  deriving DecidableEq, Repr

/-- Token payload of the login and refresh endpoints
(api/types.ts, interface TokenWithRefresh). -/
structure TokenWithRefresh where
  access_token : String
  refresh_token : String
  token_type : String
  deriving DecidableEq, Repr

/-- getTokens (authState): reads both token cells; if either is falsy
(absent or the empty string) returns null, else the pair. -/
def getTokens (st : Storage) : Option TokenPair :=
  match st.access, st.refresh with
  | some a, some r => if a = "" ∨ r = "" then none else some ⟨a, r⟩
  | _, _ => none

/-- setTokens (authState): stores both token fields, then dispatches
auth:tokens-updated. -/
def setTokens (t : TokenWithRefresh) (st : Storage) : Storage × List AuthEvent :=
  ({ st with access := some t.access_token, refresh := some t.refresh_token },
   [AuthEvent.tokensUpdated])

/-- clearTokens (authState): removes the two token cells and the user
cell, then dispatches auth:logged-out. -/
def clearTokens (_st : Storage) : Storage × List AuthEvent :=
  (Storage.empty, [AuthEvent.loggedOut])

/-- getStoredUser (authState): null when the user cell is falsy, the
parsed User when JSON.parse succeeds, null when it throws. -/
def getStoredUser (st : Storage) : Option User :=
  match st.user with
  | none => none
  | some StoredUser.invalid => none
  | some (StoredUser.valid u) => some u

/-- setStoredUser (authState): stores the stringified user, then
dispatches auth:user-updated. -/
def setStoredUser (u : User) (st : Storage) : Storage × List AuthEvent :=
  ({ st with user := some (StoredUser.valid u) }, [AuthEvent.userUpdated])

/-- clearStoredUser (authState): removes only the user cell. -/
def clearStoredUser (st : Storage) : Storage :=
  { st with user := none }

/-- isAuthenticated (authState): tokens are non-null and the access
token is not the empty string. -/
def isAuthenticated (st : Storage) : Bool :=
  match getTokens st with
  | none => false
  | some t => decide (t.access_token ≠ "")

/-! Model of JSON.parse and of the includes() call that hasPermission
makes on its result.  JSON.parse is modelled by a recursive-descent
parser of the full JSON value grammar (objects, arrays, strings with
every JSON escape including \uXXXX, numbers, true/false/null), so that
exactly the documents the source parses are parsed here.  One
representation choice: a lone UTF-16 surrogate produced by a \uXXXX
escape has no Lean Char counterpart and is modelled by the replacement
character U+FFFD (surrogate pairs are combined as in JS); and number
values keep their lexeme, since includes() never equates a number with
the queried permission string. -/

/-- A JSON value as produced by JSON.parse. -/
inductive JsonValue
  | null
  | bool (b : Bool)
  | num (lexeme : String)
  | str (s : String)
  | arr (elems : List JsonValue)
  | obj (members : List (String × JsonValue))

/-- Skips JSON whitespace. -/
def skipWs : List Char → List Char
  | [] => []
  | c :: cs =>
      if c = ' ' ∨ c = '\n' ∨ c = '\t' ∨ c = '\r' then skipWs cs else c :: cs

/-- Value of one hexadecimal digit. -/
def hexDigit (c : Char) : Option Nat :=
  if '0' ≤ c ∧ c ≤ '9' then some (c.toNat - '0'.toNat)
  else if 'a' ≤ c ∧ c ≤ 'f' then some (c.toNat - 'a'.toNat + 10)
  else if 'A' ≤ c ∧ c ≤ 'F' then some (c.toNat - 'A'.toNat + 10)
  else none

/-- Decodes a single-character JSON escape; anything else (including a
truncated \u sequence, which falls through to this case) is a syntax
error, as in JSON.parse. -/
def jsonEscape (c : Char) : Option Char :=
  if c = '"' then some '"'
  else if c = '\\' then some '\\'
  else if c = '/' then some '/'
  else if c = 'b' then some (Char.ofNat 8)
  else if c = 'f' then some (Char.ofNat 12)
  else if c = 'n' then some '\n'
  else if c = 'r' then some '\r'
  else if c = 't' then some '\t'
  else none

/-- The replacement character standing in for a lone UTF-16 surrogate. -/
def loneSurrogate : Char := Char.ofNat 0xFFFD

/-- Parses the body of a JSON string literal after the opening quote:
handles every escape, combines \uXXXX surrogate pairs, rejects
unescaped control characters, and returns the decoded text with the
remaining characters.  Fuelled to make termination structural; every
step consumes at least one input character, so the callers pass
length + 1 fuel, which can never run out. -/
def parseStrBody : Nat → List Char → List Char → Option (String × List Char)
  | 0, _, _ => none
  | fuel + 1, acc, input =>
      match input with
      | [] => none
      | '"' :: cs => some (String.mk acc.reverse, cs)
      | '\\' :: 'u' :: h1 :: h2 :: h3 :: h4 :: rest =>
          match hexDigit h1, hexDigit h2, hexDigit h3, hexDigit h4 with
          | some a, some b, some c, some d =>
              let n := ((a * 16 + b) * 16 + c) * 16 + d
              if 0xD800 ≤ n ∧ n ≤ 0xDBFF then
                match rest with
                | '\\' :: 'u' :: g1 :: g2 :: g3 :: g4 :: rest2 =>
                    match hexDigit g1, hexDigit g2, hexDigit g3, hexDigit g4 with
                    | some p, some q, some r, some t =>
                        let m := ((p * 16 + q) * 16 + r) * 16 + t
                        if 0xDC00 ≤ m ∧ m ≤ 0xDFFF then
                          parseStrBody fuel
                            (Char.ofNat (0x10000 + (n - 0xD800) * 0x400 + (m - 0xDC00)) :: acc)
                            rest2
                        else parseStrBody fuel (loneSurrogate :: acc) rest
                    | _, _, _, _ => parseStrBody fuel (loneSurrogate :: acc) rest
                | _ => parseStrBody fuel (loneSurrogate :: acc) rest
              else if 0xDC00 ≤ n ∧ n ≤ 0xDFFF then
                parseStrBody fuel (loneSurrogate :: acc) rest
              else
                parseStrBody fuel (Char.ofNat n :: acc) rest
          | _, _, _, _ => none
      | '\\' :: e :: cs =>
          match jsonEscape e with
          | none => none
          | some d => parseStrBody fuel (d :: acc) cs
      | c :: cs => if c.toNat < 0x20 then none else parseStrBody fuel (c :: acc) cs

/-- Decimal digit test. -/
def isDigit (c : Char) : Bool := decide ('0' ≤ c ∧ c ≤ '9')

/-- Parses the integer part of a JSON number after the optional minus:
a single 0, or a nonzero digit followed by digits. -/
def parseIntPart (cs : List Char) : Option (List Char × List Char) :=
  match cs with
  | [] => none
  | c :: rest =>
      if c = '0' then some ([c], rest)
      else if isDigit c then
        let sp := rest.span isDigit
        some (c :: sp.1, sp.2)
      else none

/-- Parses the optional fractional part of a JSON number. -/
def parseFracPart (cs : List Char) : Option (List Char × List Char) :=
  match cs with
  | '.' :: rest =>
      let sp := rest.span isDigit
      if sp.1.isEmpty then none else some ('.' :: sp.1, sp.2)
  | _ => some ([], cs)

/-- Parses the optional exponent part of a JSON number. -/
def parseExpPart (cs : List Char) : Option (List Char × List Char) :=
  match cs with
  | c :: rest =>
      if c = 'e' ∨ c = 'E' then
        let signed :=
          match rest with
          | t :: rest2 => if t = '+' ∨ t = '-' then ([t], rest2) else (([] : List Char), rest)
          | [] => (([] : List Char), rest)
        let sp := signed.2.span isDigit
        if sp.1.isEmpty then none else some (c :: (signed.1 ++ sp.1), sp.2)
      else some ([], cs)
  | [] => some ([], [])

/-- Parses a JSON number, returning its lexeme and the rest. -/
def parseNumber (cs : List Char) : Option (List Char × List Char) :=
  let minus :=
    match cs with
    | '-' :: rest => (['-'], rest)
    | _ => (([] : List Char), cs)
  match parseIntPart minus.2 with
  | none => none
  | some (ip, cs2) =>
      match parseFracPart cs2 with
      | none => none
      | some (fp, cs3) =>
          match parseExpPart cs3 with
          | none => none
          | some (ep, cs4) => some (minus.1 ++ ip ++ fp ++ ep, cs4)

/-! The three value productions are mutually recursive; a fuel argument
makes the recursion structural.  Every two consecutive recursive calls
consume at least one input character, so the entry point passes
2 * length + 2 fuel, which can never run out on its input. -/

mutual

/-- Parses one JSON value after optional whitespace. -/
def parseValue : Nat → List Char → Option (JsonValue × List Char)
  | 0, _ => none
  | fuel + 1, cs =>
      match skipWs cs with
      | '"' :: rest =>
          match parseStrBody (rest.length + 1) [] rest with
          | none => none
          | some (s, rest2) => some (JsonValue.str s, rest2)
      | '[' :: rest =>
          match skipWs rest with
          | ']' :: rest2 => some (JsonValue.arr [], rest2)
          | cs2 =>
              match parseArrayItems fuel cs2 with
              | none => none
              | some (l, rest2) => some (JsonValue.arr l, rest2)
      | '{' :: rest =>
          match skipWs rest with
          | '}' :: rest2 => some (JsonValue.obj [], rest2)
          | cs2 =>
              match parseObjMembers fuel cs2 with
              | none => none
              | some (ms, rest2) => some (JsonValue.obj ms, rest2)
      | 't' :: 'r' :: 'u' :: 'e' :: rest => some (JsonValue.bool true, rest)
      | 'f' :: 'a' :: 'l' :: 's' :: 'e' :: rest => some (JsonValue.bool false, rest)
      | 'n' :: 'u' :: 'l' :: 'l' :: rest => some (JsonValue.null, rest)
      | cs2 =>
          match parseNumber cs2 with
          | none => none
          | some (lex, rest) => some (JsonValue.num (String.mk lex), rest)

/-- Parses the comma-separated items of a non-empty JSON array up to
and including the closing bracket. -/
def parseArrayItems : Nat → List Char → Option (List JsonValue × List Char)
  | 0, _ => none
  | fuel + 1, cs =>
      match parseValue fuel cs with
      | none => none
      | some (v, rest) =>
          match skipWs rest with
          | ',' :: rest2 =>
              match parseArrayItems fuel rest2 with
              | none => none
              | some (l, rest3) => some (v :: l, rest3)
          | ']' :: rest2 => some ([v], rest2)
          | _ => none

/-- Parses the members of a non-empty JSON object up to and including
the closing brace. -/
def parseObjMembers : Nat → List Char → Option (List (String × JsonValue) × List Char)
  | 0, _ => none
  | fuel + 1, cs =>
      match skipWs cs with
      | '"' :: rest =>
          match parseStrBody (rest.length + 1) [] rest with
          | none => none
          | some (k, rest2) =>
              match skipWs rest2 with
              | ':' :: rest3 =>
                  match parseValue fuel rest3 with
                  | none => none
                  | some (v, rest4) =>
                      match skipWs rest4 with
                      | ',' :: rest5 =>
                          match parseObjMembers fuel rest5 with
                          | none => none
                          | some (ms, rest6) => some ((k, v) :: ms, rest6)
                      | '}' :: rest5 => some ([(k, v)], rest5)
                      | _ => none
              | _ => none
      | _ => none

end

/-- JSON.parse: parses a complete document (a single value surrounded
only by whitespace); none models a thrown SyntaxError. -/
def jsonParse (s : String) : Option JsonValue :=
  match parseValue (2 * s.length + 2) s.toList with
  | none => none
  | some (v, rest) => if skipWs rest = [] then some v else none

/-- JS Array.prototype.includes applied to a string argument:
SameValueZero comparison of the argument with each element, so only
string elements can match. -/
def jsArrayIncludesStr (l : List JsonValue) (x : String) : Bool :=
  l.any (fun v =>
    match v with
    | JsonValue.str s => s == x
    | _ => false)

/-- JS String.prototype.includes: substring occurrence test (always
true for the empty pattern). -/
def strIncludes (s pat : String) : Bool :=
  (List.range (s.toList.length + 1)).any
    (fun i => (s.toList.drop i).take pat.toList.length = pat.toList)

/-- hasPermission (authState): false when no user is cached; otherwise
runs JSON.parse on custom_permissions and evaluates
includes(permission) || includes(admin) on the result inside the
try/catch: a parse error gives false; an array tests membership of the
queried string; a string tests substring occurrence; any other value
has no includes method, so the thrown TypeError gives false. -/
def hasPermission (st : Storage) (permission : String) : Bool :=
  match getStoredUser st with
  | none => false
  | some u =>
      match jsonParse u.custom_permissions with
      | none => false
      | some (JsonValue.arr l) =>
          jsArrayIncludesStr l permission || jsArrayIncludesStr l "admin"
      | some (JsonValue.str s) =>
          strIncludes s permission || strIncludes s "admin"
      | some _ => false

/-- isAdmin (authState). -/
def isAdmin (st : Storage) : Bool :=
  hasPermission st "admin"

/-! The resilient API client (src/unnamed/part_006).  The endpoint,
method, body and extra headers of the original request do not influence
the control flow being verified; re-issuing the original request is
modelled by consuming the next entry of the same response oracle. -/

/-- One fetch outcome for the request under consideration: a response
with its status, the optional detail field of its JSON body (used by
the error branch) and its typed payload (used by the success branch),
or a thrown network error with its message. -/
inductive NetResult (α : Type)
  | resp (status : Nat) (detail : Option String) (data : α)
  | netErr (message : String)
  deriving DecidableEq, Repr

/-- One fetch outcome for the refresh endpoint: a response carrying its
response.ok flag and the token payload read when ok, or a thrown
network error. -/
inductive RefreshResult
  | resp (ok : Bool) (newTokens : TokenWithRefresh)
  | netErr
  deriving DecidableEq, Repr

/-- ApiResponse (api/types.ts): discriminated success or failure with an
error message and optional status. -/
inductive ApiResp (α : Type)
  | ok (data : α)
  | fail (error : String) (status : Option Nat)
  deriving DecidableEq, Repr

/-- Result of running apiRequest against the oracles: the returned
ApiResponse, the final storage, the Authorization bearer token attached
to each outbound fetch of the request (in order, none when the header
was omitted), the number of fetches made to the refresh endpoint, and
the auth events dispatched. -/
structure ApiOutcome (α : Type) where
  result : ApiResp α
  store : Storage
  auths : List (Option String)
  refreshCalls : Nat
  events : List AuthEvent
  deriving DecidableEq, Repr

/-- The Authorization bearer token attached by apiRequest: present only
when requiresAuth holds and getTokens yields a (truthy) access token. -/
def authHeader (requiresAuth : Bool) (st : Storage) : Option String :=
  if requiresAuth then (getTokens st).map (fun t => t.access_token) else none

/-- Result of attemptTokenRefresh: the returned boolean, the updated
storage, the unconsumed refresh oracle, the number of refresh fetches
made (0 or 1) and the dispatched events. -/
structure RefreshOutcome where
  refreshed : Bool
  store : Storage
  oracleRest : List RefreshResult
  calls : Nat
  events : List AuthEvent
  deriving DecidableEq, Repr

/-- attemptTokenRefresh (part_006): returns false without a network call
when no refresh token is stored; otherwise posts to the refresh
endpoint, returns false on a thrown error or a non-ok response, and on
an ok response stores the new tokens via setTokens and returns true.
An exhausted oracle models a thrown network error. -/
def attemptTokenRefresh (st : Storage) (oracle : List RefreshResult) : RefreshOutcome :=
  match getTokens st with
  | none => ⟨false, st, oracle, 0, []⟩
  | some _ =>
      match oracle with
      | [] => ⟨false, st, [], 1, []⟩
      | RefreshResult.netErr :: rest => ⟨false, st, rest, 1, []⟩
      | RefreshResult.resp ok newTokens :: rest =>
          if ok then
            let s := setTokens newTokens st
            ⟨true, s.1, rest, 1, s.2⟩
          else ⟨false, st, rest, 1, []⟩

/-- apiRequest (part_006).  On a 401 with requiresAuth it attempts one
token refresh; when the refresh succeeds it re-issues the request by a
recursive call with the same options (consuming the rest of the
oracle); when the refresh fails it clears the session and returns the
fixed session-expired failure with status 401.  A non-ok non-401
response yields a failure carrying the truthy detail field or the
generic message with the status; an ok response yields success; a
thrown fetch yields a failure with the error message and no status. -/
def apiRequest {α : Type} (requiresAuth : Bool) (st : Storage)
    (mains : List (NetResult α)) (oracle : List RefreshResult) : ApiOutcome α :=
  match mains with
  | [] =>
      { result := ApiResp.fail "Erreur réseau" none, store := st,
        auths := [authHeader requiresAuth st], refreshCalls := 0, events := [] }
  | m :: rest =>
      let hdr := authHeader requiresAuth st
      match m with
      | NetResult.netErr msg =>
          { result := ApiResp.fail msg none, store := st,
            auths := [hdr], refreshCalls := 0, events := [] }
      | NetResult.resp status detail data =>
          if status = 401 ∧ requiresAuth = true then
            let r := attemptTokenRefresh st oracle
            if r.refreshed then
              let o := apiRequest requiresAuth r.store rest r.oracleRest
              { result := o.result, store := o.store, auths := hdr :: o.auths,
                refreshCalls := r.calls + o.refreshCalls, events := r.events ++ o.events }
            else
              let c := clearTokens r.store
              { result := ApiResp.fail "Session expirée. Veuillez vous reconnecter." (some 401),
                store := c.1, auths := [hdr], refreshCalls := r.calls,
                events := r.events ++ c.2 }
          else if ¬ (200 ≤ status ∧ status ≤ 299) then
            let msg :=
              match detail with
              | some d => if d = "" then "Erreur " ++ toString status else d
              | none => "Erreur " ++ toString status
            { result := ApiResp.fail msg (some status), store := st,
              auths := [hdr], refreshCalls := 0, events := [] }
          else
            { result := ApiResp.ok data, store := st,
              auths := [hdr], refreshCalls := 0, events := [] }

/-! The auth service (second document of authForm.ts). -/

/-- getCurrentUser: issues an authenticated GET of /users/me; on success
stores the returned user via setStoredUser; returns the response. -/
def getCurrentUser (st : Storage) (meMains : List (NetResult User))
    (oracle : List RefreshResult) : ApiOutcome User :=
  let o := apiRequest true st meMains oracle
  match o.result with
  | ApiResp.ok u =>
      let s := setStoredUser u o.store
      { o with store := s.1, events := o.events ++ s.2 }
  | ApiResp.fail _ _ => o

/-- Result of the login and checkSession service calls: the value
returned to the caller, the final storage and the dispatched events. -/
structure SvcOutcome (α : Type) where
  result : α
  store : Storage
  events : List AuthEvent
  deriving DecidableEq, Repr

/-- login: posts credentials without auth; on failure returns it; on
success stores the tokens, fetches the current user, and on a failed
fetch clears the tokens and returns the failure; on success dispatches
auth:logged-in and returns the user response.  The login call never
consumes the refresh oracle since it does not require auth. -/
def login (st : Storage) (loginMains : List (NetResult TokenWithRefresh))
    (meMains : List (NetResult User)) (oracle : List RefreshResult) :
    SvcOutcome (ApiResp User) :=
  let o1 := apiRequest false st loginMains oracle
  match o1.result with
  | ApiResp.fail e c => ⟨ApiResp.fail e c, o1.store, o1.events⟩
  | ApiResp.ok tokens =>
      let s1 := setTokens tokens o1.store
      let o2 := getCurrentUser s1.1 meMains oracle
      match o2.result with
      | ApiResp.fail e c =>
          let s2 := clearTokens o2.store
          ⟨ApiResp.fail e c, s2.1, o1.events ++ s1.2 ++ o2.events ++ s2.2⟩
      | ApiResp.ok u =>
          ⟨ApiResp.ok u, o2.store, o1.events ++ s1.2 ++ o2.events ++ [AuthEvent.loggedIn]⟩

/-- checkSession: null when not authenticated; otherwise reads the
cached user, validates the session through getCurrentUser, returns the
fresh user on success and the previously cached user on failure. -/
def checkSession (st : Storage) (meMains : List (NetResult User))
    (oracle : List RefreshResult) : SvcOutcome (Option User) :=
  if isAuthenticated st then
    let cachedUser := getStoredUser st
    let o := getCurrentUser st meMains oracle
    match o.result with
    | ApiResp.ok u => ⟨some u, o.store, o.events⟩
    | ApiResp.fail _ _ => ⟨cachedUser, o.store, o.events⟩
  else
    ⟨none, st, []⟩

/-! The two card state machines. -/

/-- Card type of slideLoginReset.ts. -/
inductive SlideCard
  | login
  | reset
  deriving DecidableEq, Repr

/-- Module state of slideLoginReset.ts: the current card and, when a
transition timeline is in flight, its target (isAnimating is the
presence of that target). -/
structure SlideState where
  currentCard : SlideCard
  animating : Option SlideCard
  deriving DecidableEq, Repr

/-- animateSlide (slideLoginReset.ts): returns unchanged when a
transition is already animating or the target is already current;
otherwise sets isAnimating and starts a timeline whose completion
callback is modelled by slideComplete.  Both cards are assumed present
in the document. -/
def animateSlide (tgt : SlideCard) (s : SlideState) : SlideState :=
  if s.animating.isSome ∨ s.currentCard = tgt then s
  else { s with animating := some tgt }

/-- Completion callback of the animateSlide timeline: makes the target
current and clears isAnimating. -/
def slideComplete (s : SlideState) : SlideState :=
  match s.animating with
  | some t => ⟨t, none⟩
  | none => s

/-- Card type of the auth component (authForm.ts). -/
inductive AuthCard
  | login
  | logged
  | forgot
  | reset
  deriving DecidableEq, Repr

/-- State of the auth-card machine of authForm.ts: the current card and
the targets of the transition timelines currently in flight, oldest
first.  animateCardTransition has no busy flag, so every request
starts a timeline; timelines have equal durations, so they complete in
start order. -/
structure CardMachine where
  currentCard : AuthCard
  inflight : List AuthCard
  deriving DecidableEq, Repr

/-- animateCardTransition (authForm.ts): unconditionally starts a
transition timeline toward the target (the source card argument only
selects slide offsets).  Both cards are assumed present in the
document. -/
def animateCardTransition (_f t : AuthCard) (s : CardMachine) : CardMachine :=
  { s with inflight := s.inflight ++ [t] }

/-- Completion callback of the oldest in-flight animateCardTransition
timeline: sets currentCard to its target. -/
def cardTransitionComplete (s : CardMachine) : CardMachine :=
  match s.inflight with
  | t :: rest => ⟨t, rest⟩
  | [] => s

/-- A fetch outcome that is a 401 response. -/
def is401 {α : Type} : NetResult α → Bool
  | NetResult.resp status _ _ => status == 401
  | NetResult.netErr _ => false

/-- The failure modes of the refresh exchange named by the spec: no
stored token pair, a thrown network error (an exhausted oracle models
the same throw), or a non-ok refresh response. -/
def refreshFails (st : Storage) (oracle : List RefreshResult) : Prop :=
  getTokens st = none ∨ oracle = [] ∨
    (∃ rest, oracle = RefreshResult.netErr :: rest) ∨
    (∃ t rest, oracle = RefreshResult.resp false t :: rest)

end FTO


namespace FTO

theorem jsArrayIncludesStr_iff_mem (l : List JsonValue) (x : String) :
    jsArrayIncludesStr l x = true ↔ JsonValue.str x ∈ l := by
  simp only [jsArrayIncludesStr, List.any_eq_true]
  constructor
  · rintro ⟨v, hv, hf⟩
    cases v <;> simp_all
  · intro hx
    exact ⟨JsonValue.str x, hx, by simp⟩

theorem apiRequest_non401_effects {α : Type} (requiresAuth : Bool) (st : Storage)
    (m : NetResult α) (rest : List (NetResult α)) (oracle : List RefreshResult)
    (h : is401 m = false) :
    (apiRequest requiresAuth st (m :: rest) oracle).store = st ∧
    (apiRequest requiresAuth st (m :: rest) oracle).auths = [authHeader requiresAuth st] ∧
    (apiRequest requiresAuth st (m :: rest) oracle).refreshCalls = 0 ∧
    (apiRequest requiresAuth st (m :: rest) oracle).events = [] := by
  cases m with
  | netErr msg => simp [apiRequest]
  | resp status detail data =>
      simp only [is401, beq_eq_false_iff_ne, ne_eq] at h
      simp only [apiRequest]
      split
      · rename_i hc
        exact absurd hc.1 h
      · split <;> simp

theorem attemptTokenRefresh_fail (st : Storage) (oracle : List RefreshResult)
    (h : refreshFails st oracle) :
    (attemptTokenRefresh st oracle).refreshed = false ∧
    (attemptTokenRefresh st oracle).store = st ∧
    (attemptTokenRefresh st oracle).events = [] := by
  rcases h with h | h | ⟨rest, h⟩ | ⟨t, rest, h⟩ <;>
    cases hg : getTokens st <;>
      simp_all [attemptTokenRefresh]

theorem attemptTokenRefresh_events (st : Storage) (oracle : List RefreshResult) :
    ∀ e ∈ (attemptTokenRefresh st oracle).events, e = AuthEvent.tokensUpdated := by
  cases hg : getTokens st with
  | none => simp [attemptTokenRefresh, hg]
  | some tp =>
      cases oracle with
      | nil => simp [attemptTokenRefresh, hg]
      | cons r rest =>
          cases r with
          | netErr => simp [attemptTokenRefresh, hg]
          | resp ok newT =>
              cases ok <;> simp [attemptTokenRefresh, hg, setTokens]

theorem apiRequest_events_classified {α : Type} (requiresAuth : Bool) (st : Storage)
    (mains : List (NetResult α)) (oracle : List RefreshResult) :
    ∀ e ∈ (apiRequest requiresAuth st mains oracle).events,
      e = AuthEvent.tokensUpdated ∨ e = AuthEvent.loggedOut := by
  induction mains generalizing st oracle with
  | nil => simp [apiRequest]
  | cons m rest ih =>
      cases m with
      | netErr msg => simp [apiRequest]
      | resp status detail data =>
          simp only [apiRequest]
          split
          · split
            · intro e he
              simp only [List.mem_append] at he
              rcases he with he | he
              · exact Or.inl (attemptTokenRefresh_events _ _ e he)
              · exact ih _ _ e he
            · intro e he
              simp only [clearTokens, List.mem_append] at he
              rcases he with he | he
              · exact Or.inl (attemptTokenRefresh_events _ _ e he)
              · simp only [List.mem_singleton] at he
                exact Or.inr he
          · split <;> simp

end FTO

namespace FTO

/-- C4: for every valid token pair (both fields non-empty), setTokens
followed immediately by getTokens returns an equal pair. -/
theorem setTokens_getTokens_roundtrip (st : Storage) (t : TokenWithRefresh)
    (ha : t.access_token ≠ "") (hr : t.refresh_token ≠ "") :
    getTokens (setTokens t st).1 = some ⟨t.access_token, t.refresh_token⟩ := by
  simp [setTokens, getTokens, ha, hr]

/-- C4 witness at a concrete pair. -/
theorem setTokens_getTokens_roundtrip_witness :
    ("acc" : String) ≠ "" ∧ ("ref" : String) ≠ "" ∧
    getTokens (setTokens ⟨"acc", "ref", "bearer"⟩ Storage.empty).1 = some ⟨"acc", "ref"⟩ :=
  ⟨by decide, by decide,
    setTokens_getTokens_roundtrip Storage.empty ⟨"acc", "ref", "bearer"⟩
      (by decide) (by decide)⟩

/-- C5: clearTokens leaves both getTokens and getStoredUser absent for
every prior state, and is idempotent. -/
theorem clearTokens_clears (st : Storage) :
    getTokens (clearTokens st).1 = none ∧
    getStoredUser (clearTokens st).1 = none ∧
    clearTokens (clearTokens st).1 = clearTokens st :=
  ⟨rfl, rfl, rfl⟩

/-- C6: isAuthenticated is true exactly when getTokens yields a pair,
and a partial pair (either cell absent or empty) is treated as absent. -/
theorem isAuthenticated_iff_getTokens (st : Storage) :
    (isAuthenticated st = true ↔ (getTokens st).isSome = true) ∧
    ((st.access = none ∨ st.access = some "" ∨ st.refresh = none ∨ st.refresh = some "") →
      getTokens st = none ∧ isAuthenticated st = false) := by
  obtain ⟨a, r, u⟩ := st
  constructor
  · cases a with
    | none => simp [getTokens, isAuthenticated]
    | some a =>
        cases r with
        | none => simp [getTokens, isAuthenticated]
        | some r =>
            by_cases ha : a = "" <;> by_cases hrr : r = "" <;>
              simp [getTokens, isAuthenticated, ha, hrr]
  · intro h
    cases a <;> cases r <;> rcases h with h | h | h | h <;>
      simp_all [getTokens, isAuthenticated]

/-- C6 witness: a partial pair (refresh token missing) is absent. -/
theorem isAuthenticated_iff_getTokens_witness :
    getTokens ⟨some "a", none, none⟩ = none ∧
    isAuthenticated ⟨some "a", none, none⟩ = false :=
  (isAuthenticated_iff_getTokens ⟨some "a", none, none⟩).2 (Or.inr (Or.inr (Or.inl rfl)))

/-- C3 counterexample: a storage state with a cached profile but no
tokens is not authenticated, yet hasPermission returns true, because the
source checks the cached profile rather than authentication. -/
theorem hasPermission_unauthenticated_counterexample :
    isAuthenticated
        ⟨none, none, some (StoredUser.valid
          ⟨1, "a@b.com", "A", none, "[\"reports.view\"]", true, "", ""⟩)⟩ = false ∧
    hasPermission
        ⟨none, none, some (StoredUser.valid
          ⟨1, "a@b.com", "A", none, "[\"reports.view\"]", true, "", ""⟩)⟩
        "reports.view" = true :=
  ⟨rfl, rfl⟩

/-- C3 (amended): hasPermission is false when no profile is cached (the
source checks the cached profile, not authentication); when one is
cached, custom_permissions goes through JSON.parse: a parse error, or
a parsed value that is neither an array nor a string, gives false; an
array grants exactly the names present as string elements, plus every
name when the admin sentinel is an element; a string grants exactly
the names occurring as substrings, plus every name when admin occurs
as a substring. -/
theorem hasPermission_spec (st : Storage) (name : String) :
    (getStoredUser st = none → hasPermission st name = false) ∧
    (∀ u, getStoredUser st = some u → jsonParse u.custom_permissions = none →
      hasPermission st name = false) ∧
    (∀ u l, getStoredUser st = some u →
      jsonParse u.custom_permissions = some (JsonValue.arr l) →
      (hasPermission st name = true ↔
        (JsonValue.str name ∈ l ∨ JsonValue.str "admin" ∈ l))) ∧
    (∀ u l, getStoredUser st = some u →
      jsonParse u.custom_permissions = some (JsonValue.arr l) →
      JsonValue.str "admin" ∈ l → hasPermission st name = true) ∧
    (∀ u s, getStoredUser st = some u →
      jsonParse u.custom_permissions = some (JsonValue.str s) →
      (hasPermission st name = true ↔
        (strIncludes s name = true ∨ strIncludes s "admin" = true))) ∧
    (∀ u v, getStoredUser st = some u → jsonParse u.custom_permissions = some v →
      (∀ l, v ≠ JsonValue.arr l) → (∀ t, v ≠ JsonValue.str t) →
      hasPermission st name = false) := by
  refine ⟨?_, ?_, ?_, ?_, ?_, ?_⟩
  · intro h; simp [hasPermission, h]
  · intro u hu hp; simp [hasPermission, hu, hp]
  · intro u l hu hp
    simp [hasPermission, hu, hp, jsArrayIncludesStr_iff_mem]
  · intro u l hu hp hadm
    simp [hasPermission, hu, hp, jsArrayIncludesStr_iff_mem, hadm]
  · intro u t hu hp; simp [hasPermission, hu, hp]
  · intro u v hu hp harr hstr
    cases v with
    | arr l => exact absurd rfl (harr l)
    | str t => exact absurd rfl (hstr t)
    | null => simp [hasPermission, hu, hp]
    | bool b => simp [hasPermission, hu, hp]
    | num lex => simp [hasPermission, hu, hp]
    | obj ms => simp [hasPermission, hu, hp]

/-- C3 witness: a unicode-escaped admin sentinel parses to the admin
string and grants an arbitrary queried name. -/
theorem hasPermission_spec_witness :
    getStoredUser
        ⟨some "a", some "r", some (StoredUser.valid
          ⟨1, "a@b.com", "A", none, "[\"\\u0061dmin\"]", true, "", ""⟩)⟩ =
      some ⟨1, "a@b.com", "A", none, "[\"\\u0061dmin\"]", true, "", ""⟩ ∧
    jsonParse "[\"\\u0061dmin\"]" = some (JsonValue.arr [JsonValue.str "admin"]) ∧
    JsonValue.str "admin" ∈ [JsonValue.str "admin"] ∧
    hasPermission
        ⟨some "a", some "r", some (StoredUser.valid
          ⟨1, "a@b.com", "A", none, "[\"\\u0061dmin\"]", true, "", ""⟩)⟩
        "reports.edit" = true :=
  ⟨rfl, rfl, by simp,
    (hasPermission_spec _ "reports.edit").2.2.2.1
      ⟨1, "a@b.com", "A", none, "[\"\\u0061dmin\"]", true, "", ""⟩
      [JsonValue.str "admin"] rfl rfl (by simp)⟩

/-- C7 counterexample: in the four-card machine of authForm.ts a second
transition request issued while the first is still animating is not
ignored; both timelines run and the machine ends in the second target
rather than the first. -/
theorem cardTransition_overlap_counterexample :
    (animateCardTransition AuthCard.login AuthCard.logged
        (animateCardTransition AuthCard.login AuthCard.forgot
          ⟨AuthCard.login, []⟩)).inflight = [AuthCard.forgot, AuthCard.logged] ∧
    (cardTransitionComplete (cardTransitionComplete
        (animateCardTransition AuthCard.login AuthCard.logged
          (animateCardTransition AuthCard.login AuthCard.forgot
            ⟨AuthCard.login, []⟩)))).currentCard = AuthCard.logged :=
  ⟨rfl, rfl⟩

/-- C7 (amended): in the two-card slide machine a request while busy is
ignored and the first target wins, while in the four-card machine both
requests run and the later-completing (second) target wins. -/
theorem animateSlide_busy_spec :
    (∀ (s : SlideState) (t : SlideCard), s.animating.isSome = true → animateSlide t s = s) ∧
    (∀ (s : SlideState) (t1 t2 : SlideCard), s.animating = none → s.currentCard ≠ t1 →
      (slideComplete (animateSlide t2 (animateSlide t1 s))).currentCard = t1) ∧
    (∀ (s : CardMachine) (f1 t1 f2 t2 : AuthCard), s.inflight = [] →
      (cardTransitionComplete (cardTransitionComplete
        (animateCardTransition f2 t2 (animateCardTransition f1 t1 s)))).currentCard = t2) := by
  refine ⟨?_, ?_, ?_⟩
  · intro s t h
    simp [animateSlide, h]
  · intro s t1 t2 h1 h2
    simp [animateSlide, slideComplete, h1, h2]
  · intro s f1 t1 f2 t2 h
    simp [animateCardTransition, cardTransitionComplete, h]

/-- C7 witness: the spec scenario on the slide machine: request reset,
then request login before completion; the machine ends on reset. -/
theorem animateSlide_busy_spec_witness :
    (⟨SlideCard.login, none⟩ : SlideState).animating = none ∧
    SlideCard.login ≠ SlideCard.reset ∧
    (slideComplete (animateSlide SlideCard.login
      (animateSlide SlideCard.reset ⟨SlideCard.login, none⟩))).currentCard = SlideCard.reset :=
  ⟨rfl, by decide,
    animateSlide_busy_spec.2.1 ⟨SlideCard.login, none⟩ SlideCard.reset SlideCard.login
      rfl (by decide)⟩

end FTO

namespace FTO

/-- C1 counterexample: with an authenticated request whose first and
second responses are both 401 and a refresh endpoint that keeps
succeeding, apiRequest performs two refresh exchanges and three
outbound requests, so the retry is not bounded by one. -/
theorem apiRequest_double_refresh_counterexample :
    (apiRequest true ⟨some "acc0", some "ref0", none⟩
        [NetResult.resp 401 none "", NetResult.resp 401 none "",
          NetResult.resp 200 none "ok"]
        [RefreshResult.resp true ⟨"acc1", "ref1", "b"⟩,
          RefreshResult.resp true ⟨"acc2", "ref2", "b"⟩]).refreshCalls = 2 ∧
    (apiRequest true ⟨some "acc0", some "ref0", none⟩
        [NetResult.resp 401 none "", NetResult.resp 401 none "",
          NetResult.resp 200 none "ok"]
        [RefreshResult.resp true ⟨"acc1", "ref1", "b"⟩,
          RefreshResult.resp true ⟨"acc2", "ref2", "b"⟩]).auths =
      [some "acc0", some "acc1", some "acc2"] :=
  ⟨rfl, rfl⟩

/-- C1 (amended): on a 401 with a successful refresh the original
request is re-issued once with the new access token; when the second
response is not another 401 exactly one refresh exchange and two
outbound requests occur and the second attempt's result is returned;
a second 401 instead starts a further refresh-and-retry cycle. -/
theorem apiRequest_single_refresh_on_non401_retry {α : Type} (st : Storage)
    (d : Option String) (x : α) (m2 : NetResult α) (rest : List (NetResult α))
    (newT : TokenWithRefresh) (orest : List RefreshResult)
    (hst : getTokens st ≠ none)
    (hna : newT.access_token ≠ "") (hnr : newT.refresh_token ≠ "")
    (h2 : is401 m2 = false) :
    (apiRequest true st (NetResult.resp 401 d x :: m2 :: rest)
        (RefreshResult.resp true newT :: orest)).refreshCalls = 1 ∧
    (apiRequest true st (NetResult.resp 401 d x :: m2 :: rest)
        (RefreshResult.resp true newT :: orest)).auths =
      [authHeader true st, some newT.access_token] ∧
    (apiRequest true st (NetResult.resp 401 d x :: m2 :: rest)
        (RefreshResult.resp true newT :: orest)).result =
      (apiRequest true (setTokens newT st).1 (m2 :: rest) orest).result ∧
    (apiRequest true st (NetResult.resp 401 d x :: m2 :: rest)
        (RefreshResult.resp true newT :: orest)).store = (setTokens newT st).1 ∧
    (apiRequest true st (NetResult.resp 401 d x :: m2 :: rest)
        (RefreshResult.resp true newT :: orest)).events = [AuthEvent.tokensUpdated] := by
  have hr : attemptTokenRefresh st (RefreshResult.resp true newT :: orest) =
      ⟨true, (setTokens newT st).1, orest, 1, [AuthEvent.tokensUpdated]⟩ := by
    cases hg : getTokens st with
    | none => exact absurd hg hst
    | some tp => simp [attemptTokenRefresh, hg, setTokens]
  have hauth1 : authHeader true (setTokens newT st).1 = some newT.access_token := by
    simp [authHeader, setTokens, getTokens, hna, hnr]
  refine ⟨?_, ?_, ?_, ?_, ?_⟩ <;>
    cases m2 with
    | netErr msg => simp [apiRequest, hr, hauth1]
    | resp s2 d2 y =>
        have hne : ¬ (s2 = 401) := by simpa [is401] using h2
        simp [apiRequest, hr, hauth1, hne]
        try (split <;> simp)

/-- C1 witness: concrete 401-then-200 run with a successful refresh. -/
theorem apiRequest_single_refresh_on_non401_retry_witness :
    getTokens ⟨some "a0", some "r0", none⟩ ≠ none ∧
    ("a1" : String) ≠ "" ∧ ("r1" : String) ≠ "" ∧
    is401 (NetResult.resp 200 none "q") = false ∧
    (apiRequest true ⟨some "a0", some "r0", none⟩
        [NetResult.resp 401 none "p", NetResult.resp 200 none "q"]
        [RefreshResult.resp true ⟨"a1", "r1", "b"⟩]).refreshCalls = 1 ∧
    (apiRequest true ⟨some "a0", some "r0", none⟩
        [NetResult.resp 401 none "p", NetResult.resp 200 none "q"]
        [RefreshResult.resp true ⟨"a1", "r1", "b"⟩]).auths = [some "a0", some "a1"] := by
  refine ⟨by decide, by decide, by decide, by decide, ?_, ?_⟩
  · exact (apiRequest_single_refresh_on_non401_retry ⟨some "a0", some "r0", none⟩
      none "p" (NetResult.resp 200 none "q") [] ⟨"a1", "r1", "b"⟩ []
      (by decide) (by decide) (by decide) (by decide)).1
  · have h := (apiRequest_single_refresh_on_non401_retry ⟨some "a0", some "r0", none⟩
      none "p" (NetResult.resp 200 none "q") [] ⟨"a1", "r1", "b"⟩ []
      (by decide) (by decide) (by decide) (by decide)).2.1
    rw [h]; rfl

/-- C2: when the first response is 401 and the refresh exchange fails
(no stored tokens, a network error, or a non-ok refresh response), the
session is cleared, exactly one logged-out event is dispatched, the
request is not retried, and the fixed session-expired failure with
status 401 is returned. -/
theorem apiRequest_401_refresh_fail {α : Type} (st : Storage) (d : Option String) (x : α)
    (rest : List (NetResult α)) (oracle : List RefreshResult)
    (h : refreshFails st oracle) :
    (apiRequest true st (NetResult.resp 401 d x :: rest) oracle).result =
      ApiResp.fail "Session expirée. Veuillez vous reconnecter." (some 401) ∧
    (apiRequest true st (NetResult.resp 401 d x :: rest) oracle).store = Storage.empty ∧
    (apiRequest true st (NetResult.resp 401 d x :: rest) oracle).auths =
      [authHeader true st] ∧
    (apiRequest true st (NetResult.resp 401 d x :: rest) oracle).events =
      [AuthEvent.loggedOut] := by
  have hf := attemptTokenRefresh_fail st oracle h
  refine ⟨?_, ?_, ?_, ?_⟩ <;>
    simp [apiRequest, hf.1, hf.2.2, clearTokens]

/-- C2 witness: concrete 401 with a refresh endpoint returning 500. -/
theorem apiRequest_401_refresh_fail_witness :
    refreshFails ⟨some "a0", some "r0", none⟩
      [RefreshResult.resp false ⟨"", "", ""⟩] ∧
    (apiRequest true ⟨some "a0", some "r0", none⟩
        [NetResult.resp 401 none "p"]
        [RefreshResult.resp false ⟨"", "", ""⟩]).result =
      ApiResp.fail "Session expirée. Veuillez vous reconnecter." (some 401) ∧
    (apiRequest true ⟨some "a0", some "r0", none⟩
        [NetResult.resp 401 none "p"]
        [RefreshResult.resp false ⟨"", "", ""⟩]).events = [AuthEvent.loggedOut] := by
  have hff : refreshFails ⟨some "a0", some "r0", none⟩
      [RefreshResult.resp false ⟨"", "", ""⟩] :=
    Or.inr (Or.inr (Or.inr ⟨⟨"", "", ""⟩, [], rfl⟩))
  have h := apiRequest_401_refresh_fail (α := String) ⟨some "a0", some "r0", none⟩
    none "p" [] [RefreshResult.resp false ⟨"", "", ""⟩] hff
  exact ⟨hff, h.1, h.2.2.2⟩

/-- C8: a non-401 error response yields a failure carrying the truthy
detail field when present, otherwise the generic message with the
numeric status, together with that status, with no retry, no state
change and no events. -/
theorem apiRequest_http_error {α : Type} (requiresAuth : Bool) (st : Storage)
    (status : Nat) (detail : Option String) (x : α) (rest : List (NetResult α))
    (oracle : List RefreshResult)
    (h401 : status ≠ 401) (herr : ¬ (200 ≤ status ∧ status ≤ 299)) :
    (∀ m, detail = some m → m ≠ "" →
      (apiRequest requiresAuth st (NetResult.resp status detail x :: rest) oracle).result =
        ApiResp.fail m (some status)) ∧
    ((detail = none ∨ detail = some "") →
      (apiRequest requiresAuth st (NetResult.resp status detail x :: rest) oracle).result =
        ApiResp.fail ("Erreur " ++ toString status) (some status)) ∧
    (apiRequest requiresAuth st (NetResult.resp status detail x :: rest) oracle).store = st ∧
    (apiRequest requiresAuth st (NetResult.resp status detail x :: rest) oracle).auths.length
      = 1 ∧
    (apiRequest requiresAuth st (NetResult.resp status detail x :: rest) oracle).events
      = [] := by
  have hc : ¬ (status = 401 ∧ requiresAuth = true) := fun hh => h401 hh.1
  refine ⟨?_, ?_, ?_, ?_, ?_⟩
  · intro m hm hme; simp [apiRequest, hc, herr, hm, hme]
  · rintro (hd | hd) <;> simp [apiRequest, hc, herr, hd]
  · simp [apiRequest, hc, herr]
  · simp [apiRequest, hc, herr]
  · simp [apiRequest, hc, herr]

/-- C8 witness: a 404 whose body carries a detail message. -/
theorem apiRequest_http_error_witness :
    (404 : Nat) ≠ 401 ∧ ¬ ((200 : Nat) ≤ 404 ∧ (404 : Nat) ≤ 299) ∧
    (apiRequest true ⟨some "a0", some "r0", none⟩
        [NetResult.resp 404 (some "Not found") "p"] []).result =
      ApiResp.fail "Not found" (some 404) :=
  ⟨by decide, by decide,
    (apiRequest_http_error true ⟨some "a0", some "r0", none⟩ 404 (some "Not found") "p" [] []
        (by decide) (by decide)).1 "Not found" rfl (by decide)⟩

end FTO

namespace FTO

/-- C9: when the token exchange succeeds but the profile fetch fails,
login clears the just-stored tokens before returning the failure, the
final storage is empty so isAuthenticated is false, and no logged-in
event is dispatched. -/
theorem login_rollback_on_profile_failure (st : Storage) (s : Nat) (d : Option String)
    (t : TokenWithRefresh) (lrest : List (NetResult TokenWithRefresh))
    (meMains : List (NetResult User)) (oracle : List RefreshResult)
    (e : String) (c : Option Nat)
    (hs1 : 200 ≤ s) (hs2 : s ≤ 299)
    (hfail : (apiRequest true (setTokens t st).1 meMains oracle).result =
      ApiResp.fail e c) :
    (login st (NetResult.resp s d t :: lrest) meMains oracle).result = ApiResp.fail e c ∧
    (login st (NetResult.resp s d t :: lrest) meMains oracle).store = Storage.empty ∧
    isAuthenticated (login st (NetResult.resp s d t :: lrest) meMains oracle).store
      = false ∧
    AuthEvent.loggedIn ∉ (login st (NetResult.resp s d t :: lrest) meMains oracle).events := by
  have hno401 : ¬ (s = 401 ∧ False) := fun hh => hh.2
  have hok : 200 ≤ s ∧ s ≤ 299 := ⟨hs1, hs2⟩
  have ho1 : apiRequest false st (NetResult.resp s d t :: lrest) oracle =
      { result := ApiResp.ok t, store := st, auths := [authHeader false st],
        refreshCalls := 0, events := [] } := by
    simp [apiRequest, hs1, hs2]
  have hgc : getCurrentUser (setTokens t st).1 meMains oracle =
      apiRequest true (setTokens t st).1 meMains oracle := by
    simp [getCurrentUser, hfail]
  have hcls := apiRequest_events_classified true (setTokens t st).1 meMains oracle
  have hst2 : (setTokens t st).2 = [AuthEvent.tokensUpdated] := rfl
  have hlogin : login st (NetResult.resp s d t :: lrest) meMains oracle =
      ⟨ApiResp.fail e c, Storage.empty,
        [] ++ [AuthEvent.tokensUpdated] ++
          (apiRequest true (setTokens t st).1 meMains oracle).events ++
          [AuthEvent.loggedOut]⟩ := by
    simp [login, ho1, hgc, hfail, clearTokens, hst2]
  rw [hlogin]
  refine ⟨rfl, rfl, rfl, ?_⟩
  intro hmem
  simp only [List.nil_append, List.mem_append, List.mem_singleton] at hmem
  rcases hmem with (hmem | hmem) | hmem
  · exact absurd hmem (by decide)
  · rcases hcls _ hmem with h | h <;> exact absurd h (by decide)
  · exact absurd hmem (by decide)

/-- C9 witness: login token exchange returns 200 but the profile fetch
hits a network error. -/
theorem login_rollback_on_profile_failure_witness :
    (200 : Nat) ≤ 200 ∧ (200 : Nat) ≤ 299 ∧
    (apiRequest (α := User) true (setTokens ⟨"a1", "r1", "b"⟩ Storage.empty).1
        [NetResult.netErr "boom"] []).result = ApiResp.fail "boom" none ∧
    (login Storage.empty
        [NetResult.resp 200 none ⟨"a1", "r1", "b"⟩]
        [NetResult.netErr "boom"] []).result = ApiResp.fail "boom" none ∧
    (login Storage.empty
        [NetResult.resp 200 none ⟨"a1", "r1", "b"⟩]
        [NetResult.netErr "boom"] []).store = Storage.empty ∧
    AuthEvent.loggedIn ∉
      (login Storage.empty
        [NetResult.resp 200 none ⟨"a1", "r1", "b"⟩]
        [NetResult.netErr "boom"] []).events := by
  have h := login_rollback_on_profile_failure Storage.empty 200 none ⟨"a1", "r1", "b"⟩
    [] [NetResult.netErr "boom"] [] "boom" none (by decide) (by decide) rfl
  exact ⟨by decide, by decide, rfl, h.1, h.2.1, h.2.2.2⟩

/-- C10: checkSession returns null and stops when not authenticated;
when authenticated its storage effect is exactly that of the inner
getCurrentUser call (it never clears the session itself), it returns
the fresh user on success and the previously cached user (possibly
null) on failure. -/
theorem checkSession_spec (st : Storage) (meMains : List (NetResult User))
    (oracle : List RefreshResult) :
    (isAuthenticated st = false → checkSession st meMains oracle = ⟨none, st, []⟩) ∧
    (isAuthenticated st = true →
      (checkSession st meMains oracle).store = (getCurrentUser st meMains oracle).store ∧
      (∀ e c, (getCurrentUser st meMains oracle).result = ApiResp.fail e c →
        (checkSession st meMains oracle).result = getStoredUser st) ∧
      (∀ u, (getCurrentUser st meMains oracle).result = ApiResp.ok u →
        (checkSession st meMains oracle).result = some u)) := by
  refine ⟨?_, ?_⟩
  · intro h; simp [checkSession, h]
  · intro h
    refine ⟨?_, ?_, ?_⟩
    · simp only [checkSession, h, if_true]
      split <;> rfl
    · intro e c hf; simp [checkSession, h, hf]
    · intro u hu; simp [checkSession, h, hu]

/-- C10 witness: an authenticated state whose validation call fails
returns the previously cached profile. -/
theorem checkSession_spec_witness :
    isAuthenticated
      ⟨some "a", some "r", some (StoredUser.valid
        ⟨1, "a@b.com", "A", none, "[]", true, "", ""⟩)⟩ = true ∧
    (getCurrentUser
      ⟨some "a", some "r", some (StoredUser.valid
        ⟨1, "a@b.com", "A", none, "[]", true, "", ""⟩)⟩
      [NetResult.netErr "down"] []).result = ApiResp.fail "down" none ∧
    (checkSession
      ⟨some "a", some "r", some (StoredUser.valid
        ⟨1, "a@b.com", "A", none, "[]", true, "", ""⟩)⟩
      [NetResult.netErr "down"] []).result =
      some ⟨1, "a@b.com", "A", none, "[]", true, "", ""⟩ := by
  refine ⟨rfl, rfl, ?_⟩
  exact (checkSession_spec
    ⟨some "a", some "r", some (StoredUser.valid
      ⟨1, "a@b.com", "A", none, "[]", true, "", ""⟩)⟩
    [NetResult.netErr "down"] []).2 rfl |>.2.1 "down" none rfl

end FTO
